import Mathlib

set_option linter.unusedVariables false

/-!
Verification of the everhome-py API client (`src/everhome/everhome_client.py`)
against its natural-language specification.

The Python client is embedded shallowly:

* JSON / Python values decoded by `json.loads` are modelled by the inductive
  type `Json`; the Python value `None` is `Json.null` (a body that fails to
  parse as JSON is `Option.none` at the `jsonBody` field of a `Response`).
* The HTTP transport is an oracle: `HttpOutcome` is what `session.request`
  produces (a `Response`, or a `requests.exceptions.RetryError`).
* `EverHome._internal_call` splits into the pure request construction
  (`buildRequest`, everything up to the `session.request` line) and the
  response/error handling (`handleOutcome`, the `try`/`except` block).
* The `everhome.exceptions.EverHomeException` class is not part of the
  sources; its field layout is modelled from the specification.
-/

/-- Python values produced by `json.loads`, and Python literals the client
manipulates.  `null` doubles as the Python value `None`. -/
inductive Json where
  | null : Json
  | bool : Bool → Json
  | num : Int → Json
  | str : String → Json
  | arr : List Json → Json
  | obj : List (String × Json) → Json

/-- Python truthiness (`if payload:`): `None`, `False`, `0`, `""`, `[]` and
an empty dict are falsy, everything else is truthy. -/
def pyTruthy : Json → Bool
  | Json.null => false
  | Json.bool b => b
  | Json.num n => n != 0
  | Json.str s => s != ""
  | Json.arr xs => !xs.isEmpty
  | Json.obj fs => !fs.isEmpty

/-- Python `dict.get(key, default)` on an arbitrary value: `some` of the
stored value (or of the default when the key is absent) when the value is a
dict, `none` when it is not a dict — in Python that case raises
`AttributeError`, which `_internal_call` does not catch. -/
def pyDictGet (j : Json) (k : String) (d : Json) : Option Json :=
  match j with
  | Json.obj fields => some ((fields.lookup k).getD d)
  | _ => none

/-- A single-quote character, for Python `repr` of strings. -/
def singleQuote : String := String.singleton (Char.ofNat 39)

mutual

/-- Python `repr` of a JSON-shaped value (escape handling inside strings is
elided: the client never builds strings with quotes in them). -/
def pyRepr : Json → String
  | Json.null => "None"
  | Json.bool true => "True"
  | Json.bool false => "False"
  | Json.num n => toString n
  | Json.str s => singleQuote ++ s ++ singleQuote
  | Json.arr xs => "[" ++ pyReprList xs ++ "]"
  | Json.obj fs => "\x7b" ++ pyReprObj fs ++ "\x7d"

def pyReprList : List Json → String
  | [] => ""
  | [x] => pyRepr x
  | x :: y :: xs => pyRepr x ++ ", " ++ pyReprList (y :: xs)

def pyReprObj : List (String × Json) → String
  | [] => ""
  | [kv] => singleQuote ++ kv.1 ++ singleQuote ++ ": " ++ pyRepr kv.2
  | kv :: kv2 :: xs =>
      singleQuote ++ kv.1 ++ singleQuote ++ ": " ++ pyRepr kv.2 ++ ", "
        ++ pyReprObj (kv2 :: xs)

end

/-- Python `str()` as used by `"%s" % value`: strings render as themselves,
every other value as its `repr`. -/
def pyStr : Json → String
  | Json.str s => s
  | j => pyRepr j

/-- JSON string escaping for `json.dumps` (the characters the client can
produce; other control characters never occur in its payloads). -/
def escapeJsonChar (c : Char) : String :=
  if c = '"' then "\\\""
  else if c = '\\' then "\\\\"
  else if c = '\n' then "\\n"
  else if c = '\t' then "\\t"
  else if c = '\r' then "\\r"
  else String.singleton c

def escapeJson (s : String) : String :=
  s.data.foldl (fun acc c => acc ++ escapeJsonChar c) ""

mutual

/-- `json.dumps` with its default separators. -/
def dumps : Json → String
  | Json.null => "null"
  | Json.bool true => "true"
  | Json.bool false => "false"
  | Json.num n => toString n
  | Json.str s => "\"" ++ escapeJson s ++ "\""
  | Json.arr xs => "[" ++ dumpsList xs ++ "]"
  | Json.obj fs => "\x7b" ++ dumpsObj fs ++ "\x7d"

def dumpsList : List Json → String
  | [] => ""
  | [x] => dumps x
  | x :: y :: xs => dumps x ++ ", " ++ dumpsList (y :: xs)

def dumpsObj : List (String × Json) → String
  | [] => ""
  | [kv] => "\"" ++ escapeJson kv.1 ++ "\": " ++ dumps kv.2
  | kv :: kv2 :: xs =>
      "\"" ++ escapeJson kv.1 ++ "\": " ++ dumps kv.2 ++ ", "
        ++ dumpsObj (kv2 :: xs)

end

/-- The keyword arguments of the `urllib3.Retry(...)` call in
`EverHome._build_session`, stored as passed.  Note that in urllib3 the
`status` parameter is the per-category retry *count* and `status_forcelist`
is the set of status codes to force a retry on; the client passes its status
tuple to `status` and leaves `status_forcelist=None`.
`respect_retry_after_header` is urllib3's default `True`. -/
structure RetryConfig where
  total : Nat
  connect : Option Nat
  read : Bool
  allowed_methods : List String
  status : List Nat
  backoff_factor : Rat
  status_forcelist : Option (List Nat)
  respect_retry_after_header : Bool

/-- The session state built by `_build_session`: one retry policy, mounted
on both adapters. -/
structure SessionConfig where
  retry : RetryConfig
  mounts : List String

/-- `EverHome._build_session`: the retry object exactly as constructed,
mounted for both schemes. -/
def build_session : SessionConfig :=
  { retry :=
      { total := 3
        connect := none
        read := false
        allowed_methods := ["GET", "POST", "PUT", "DELETE"]
        status := [429, 500, 502, 503, 504]
        backoff_factor := 3 / 10
        status_forcelist := none
        respect_retry_after_header := true }
    mounts := ["http://", "https://"] }

/-- Modelled from the dependency urllib3: `Retry.RETRY_AFTER_STATUS_CODES`. -/
def retryAfterStatusCodes : List Nat := [413, 429, 503]

/-- Python `str.upper()` on a single ASCII character (the client only
upper-cases HTTP method names). -/
def charToUpper (c : Char) : Char :=
  if 97 ≤ c.toNat ∧ c.toNat ≤ 122 then Char.ofNat (c.toNat - 32) else c

/-- Python `str.upper()`. -/
def strToUpper (s : String) : String := String.mk (s.data.map charToUpper)

/-- Modelled from the dependency urllib3: `Retry._is_method_retryable`
(`if self.allowed_methods and method.upper() not in self.allowed_methods:
return False; return True`). -/
def is_method_retryable (r : RetryConfig) (method : String) : Bool :=
  if !r.allowed_methods.isEmpty
      && !(r.allowed_methods.contains (strToUpper method))
  then false
  else true

/-- Modelled from the dependency urllib3: `Retry.is_retry(method, status_code,
has_retry_after)` — whether a response with the given status is retried.
With a falsy `status_forcelist` only statuses in `RETRY_AFTER_STATUS_CODES`
that arrive with a `Retry-After` header qualify. -/
def is_retry (r : RetryConfig) (method : String) (statusCode : Nat)
    (hasRetryAfter : Bool) : Bool :=
  if !is_method_retryable r method then false
  else if (match r.status_forcelist with
           | some l => !l.isEmpty && l.contains statusCode
           | none => false) then true
  else (r.total != 0) && r.respect_retry_after_header && hasRetryAfter
        && retryAfterStatusCodes.contains statusCode

/-- The client object.  The source names the base-URL field `prefix`; that
word is a Lean keyword, so the field is called `base_url` here. -/
structure EverHome where
  base_url : String
  _auth : Option String
  _session : SessionConfig
  requests_timeout : Nat

/-- `EverHome.__init__`: fixed base URL, the given token, a fresh session,
the given timeout (Python default 5). -/
def everhome_init (auth : Option String) (requests_timeout : Nat) : EverHome :=
  { base_url := "https://everhome.cloud/"
    _auth := auth
    _session := build_session
    requests_timeout := requests_timeout }

/-- `EverHome.set_auth`: assigns `self._auth` and nothing else. -/
def set_auth (c : EverHome) (auth : Option String) : EverHome :=
  { c with _auth := auth }

/-- `"Bearer {0}".format(self._auth)` renders `None` as the string
`"None"`. -/
def formatAuth : Option String → String
  | some s => s
  | none => "None"

/-- `EverHome._auth_headers`. -/
def auth_headers (c : EverHome) : List (String × Json) :=
  [("Authorization", Json.str ("Bearer " ++ formatAuth c._auth))]

/-- Python `s.startswith(pre)`. -/
def strStartsWith (s pre : String) : Bool :=
  pre.data.isPrefixOf s.data

/-- URL resolution in `_internal_call`:
`if not url.startswith("http"): url = self.prefix + url`. -/
def resolveUrl (base url : String) : String :=
  if strStartsWith url "http" then url else base ++ url

/-- The body finally placed in `args["data"]`: either the payload object
untouched, or the string `json.dumps(payload)`. -/
inductive SentBody where
  | raw : Json → SentBody
  | jsonData : String → SentBody

/-- Everything `_internal_call` hands to `session.request`: method, resolved
URL, headers, the (possibly stripped) query parameters, the body, and the
client timeout. -/
structure SentRequest where
  method : String
  url : String
  headers : List (String × Json)
  params : List (String × Json)
  data : Option SentBody
  timeout : Nat

/-- The pure first half of `EverHome._internal_call`: URL resolution, header
construction, the `content_type` override, and payload encoding, exactly as
in the source (`args["data"]` is only set when `payload` is truthy). -/
def buildRequest (c : EverHome) (method url : String) (payload : Json)
    (params : List (String × Json)) : SentRequest :=
  let url := resolveUrl c.base_url url
  match params.lookup "content_type" with
  | some ct =>
      { method := method
        url := url
        headers := auth_headers c ++ [("Content-Type", ct)]
        params := params.filter (fun q => q.1 != "content_type")
        data := if pyTruthy payload then some (SentBody.raw payload) else none
        timeout := c.requests_timeout }
  | none =>
      { method := method
        url := url
        headers := auth_headers c ++ [("Content-Type", Json.str "application/json")]
        params := params
        data := if pyTruthy payload
                then some (SentBody.jsonData (dumps payload)) else none
        timeout := c.requests_timeout }

/-- A response as seen by `_internal_call`: status, final URL, body text,
the result of `response.json()` (`none` when parsing raises `ValueError`),
and the response headers. -/
structure Response where
  statusCode : Nat
  url : String
  text : String
  jsonBody : Option Json
  headers : List (String × String)

/-- A `requests.exceptions.RetryError`: the request's `path_url` and the
value of `retry_error.args[0].reason` (`none` models the
`IndexError`/`AttributeError` fallback in the source). -/
structure RetryErrorInfo where
  path_url : String
  argReason : Option Json

/-- What `session.request` produces: a response, or retry exhaustion. -/
inductive HttpOutcome where
  | response : Response → HttpOutcome
  | retryError : RetryErrorInfo → HttpOutcome

/-- Modelled from the spec: the `everhome.exceptions` module is not in the
sources.  Per the specification the Error carries the HTTP status, an
API error code, a message, an optional reason and optional headers; the
client calls it positionally as `(status, code, message)` with keyword
`reason` and `headers`, `headers` defaulting to absent. -/
structure EverHomeException where
  http_status : Nat
  error_code : Int
  message : String
  reason : Json
  headers : Option (List (String × String))

/-- A failure escaping `_internal_call`: the typed client exception, or the
uncaught `AttributeError` raised when an HTTP-error body parses as JSON to a
value without a `.get` method. -/
inductive PyError where
  | everhome : EverHomeException → PyError
  | attributeError : PyError

/-- The `try`/`except` half of `EverHome._internal_call`.
`raise_for_status` raises exactly for statuses in `[400, 600)`; on such a
status the body is decoded and `error.message` / `error.reason` extracted
with `dict.get`, falling back to the raw text (`or None`) when decoding
raised `ValueError`; a `RetryError` becomes the fixed 429 exception; on a
non-error status a `ValueError` from `response.json()` yields `None`. -/
def handleOutcome : HttpOutcome → Except PyError Json
  | HttpOutcome.retryError info =>
      Except.error (PyError.everhome
        { http_status := 429
          error_code := -1
          message := info.path_url ++ ":\n " ++ "Max Retries"
          reason := info.argReason.getD Json.null
          headers := none })
  | HttpOutcome.response r =>
      if 400 ≤ r.statusCode ∧ r.statusCode < 600 then
        match r.jsonBody with
        | some j =>
            match pyDictGet j "error" (Json.obj []) with
            | none => Except.error PyError.attributeError
            | some err =>
                match pyDictGet err "message" Json.null,
                      pyDictGet err "reason" Json.null with
                | some msg, some reason =>
                    Except.error (PyError.everhome
                      { http_status := r.statusCode
                        error_code := -1
                        message := r.url ++ ":\n " ++ pyStr msg
                        reason := reason
                        headers := some r.headers })
                | _, _ => Except.error PyError.attributeError
        | none =>
            let msg : Json :=
              if r.text = "" then Json.null else Json.str r.text
            Except.error (PyError.everhome
              { http_status := r.statusCode
                error_code := -1
                message := r.url ++ ":\n " ++ pyStr msg
                reason := Json.null
                headers := some r.headers })
      else
        Except.ok (r.jsonBody.getD Json.null)

/-- The sent request together with the call result. -/
structure CallResult where
  sent : SentRequest
  result : Except PyError Json

/-- `EverHome._internal_call`, with the transport's behaviour supplied as
the `outcome` oracle: the request built from the arguments is issued, and
the outcome is translated by `handleOutcome`. -/
def internal_call (c : EverHome) (method url : String) (payload : Json)
    (params : List (String × Json)) (outcome : HttpOutcome) : CallResult :=
  { sent := buildRequest c method url payload params
    result := handleOutcome outcome }

/-- `kwargs.update(args)` guarded by `if args:` — a `None` or empty mapping
leaves `kwargs` unchanged; otherwise each binding of `args` replaces or
appends. -/
def dictSet (d : List (String × Json)) (k : String) (v : Json) :
    List (String × Json) :=
  if d.any (fun q => q.1 == k)
  then d.map (fun q => if q.1 == k then (k, v) else q)
  else d ++ [(k, v)]

def dictUpdate (d a : List (String × Json)) : List (String × Json) :=
  a.foldl (fun acc kv => dictSet acc kv.1 kv.2) d

def mergeKwargs (kwargs : List (String × Json))
    (args : Option (List (String × Json))) : List (String × Json) :=
  match args with
  | some a => if a.isEmpty then kwargs else dictUpdate kwargs a
  | none => kwargs

/-- `EverHome._get`. -/
def get_wrapper (c : EverHome) (url : String)
    (args : Option (List (String × Json))) (payload : Json)
    (kwargs : List (String × Json)) (outcome : HttpOutcome) : CallResult :=
  internal_call c "GET" url payload (mergeKwargs kwargs args) outcome

/-- `EverHome._post`. -/
def post_wrapper (c : EverHome) (url : String)
    (args : Option (List (String × Json))) (payload : Json)
    (kwargs : List (String × Json)) (outcome : HttpOutcome) : CallResult :=
  internal_call c "POST" url payload (mergeKwargs kwargs args) outcome

/-- `EverHome._delete`. -/
def delete_wrapper (c : EverHome) (url : String)
    (args : Option (List (String × Json))) (payload : Json)
    (kwargs : List (String × Json)) (outcome : HttpOutcome) : CallResult :=
  internal_call c "DELETE" url payload (mergeKwargs kwargs args) outcome

/-- `EverHome._put`. -/
def put_wrapper (c : EverHome) (url : String)
    (args : Option (List (String × Json))) (payload : Json)
    (kwargs : List (String × Json)) (outcome : HttpOutcome) : CallResult :=
  internal_call c "PUT" url payload (mergeKwargs kwargs args) outcome

/-- State-passing form of `_internal_call`: the method body contains no
assignment to any attribute of `self`, so the client state after the call is
the client state before it. -/
def internal_callS (c : EverHome) (method url : String) (payload : Json)
    (params : List (String × Json)) (outcome : HttpOutcome) :
    CallResult × EverHome :=
  (internal_call c method url payload params outcome, c)

/-- State-passing form of `_get` (no attribute assignment in the body). -/
def get_wrapperS (c : EverHome) (url : String)
    (args : Option (List (String × Json))) (payload : Json)
    (kwargs : List (String × Json)) (outcome : HttpOutcome) :
    CallResult × EverHome :=
  (get_wrapper c url args payload kwargs outcome, c)

/-- State-passing form of `_post`. -/
def post_wrapperS (c : EverHome) (url : String)
    (args : Option (List (String × Json))) (payload : Json)
    (kwargs : List (String × Json)) (outcome : HttpOutcome) :
    CallResult × EverHome :=
  (post_wrapper c url args payload kwargs outcome, c)

/-- State-passing form of `_delete`. -/
def delete_wrapperS (c : EverHome) (url : String)
    (args : Option (List (String × Json))) (payload : Json)
    (kwargs : List (String × Json)) (outcome : HttpOutcome) :
    CallResult × EverHome :=
  (delete_wrapper c url args payload kwargs outcome, c)

/-- State-passing form of `_put`. -/
def put_wrapperS (c : EverHome) (url : String)
    (args : Option (List (String × Json))) (payload : Json)
    (kwargs : List (String × Json)) (outcome : HttpOutcome) :
    CallResult × EverHome :=
  (put_wrapper c url args payload kwargs outcome, c)

/-- Follows the spec wording for claim C2: a URL "starts with a URL scheme"
when it begins with an RFC 3986 scheme — a letter, then letters, digits,
`+`, `-` or `.`, terminated by a colon. -/
def schemeTail : List Char → Bool
  | [] => false
  | c :: rest =>
      if c = ':' then true
      else (c.isAlpha || c.isDigit || c = '+' || c = '-' || c = '.')
            && schemeTail rest

def startsWithUrlScheme (s : String) : Bool :=
  match s.data with
  | [] => false
  | c :: rest => c.isAlpha && schemeTail rest

/-- Follows the claim wording for C8: the surfaced result is either a
success or the single typed client exception (never the uncaught
`AttributeError`). -/
def onlyTypedFailure : Except PyError Json → Bool
  | Except.error PyError.attributeError => false
  | _ => true

/-- The side condition under which C8 holds: the transport outcome is a
retry error, or a response whose body is unparseable, or parses to a dict
whose `error` member (defaulting to `{}`) is itself a dict. -/
def errorBodyObjLike : HttpOutcome → Bool
  | HttpOutcome.retryError _ => true
  | HttpOutcome.response r =>
      match r.jsonBody with
      | none => true
      | some (Json.obj fs) =>
          match (fs.lookup "error").getD (Json.obj []) with
          | Json.obj _ => true
          | _ => false
      | some _ => false

/-! ### Concrete fixtures used by witnesses and counterexamples -/

def c0 : EverHome := everhome_init (some "123") 5

def r404 : Response :=
  { statusCode := 404
    url := "https://everhome.cloud/user/current"
    text := "..."
    jsonBody := some (Json.obj [("error", Json.obj
      [("message", Json.str "not found"), ("reason", Json.str "no_such_user")])])
    headers := [("Content-Length", "64")] }

def r500 : Response :=
  { statusCode := 500
    url := "https://everhome.cloud/user/current"
    text := "internal error"
    jsonBody := none
    headers := [] }

def r200bad : Response :=
  { statusCode := 200
    url := "https://everhome.cloud/user/current"
    text := "not json"
    jsonBody := none
    headers := [] }

def rArrBody : Response :=
  { statusCode := 404
    url := "https://everhome.cloud/user/current"
    text := "[]"
    jsonBody := some (Json.arr [])
    headers := [] }

def o200 : HttpOutcome := HttpOutcome.response r200bad

/-! ### Claim theorems -/

/-- Claim C1.  The claim says the session retries on response statuses 429,
500, 502, 503 and 504.  The code passes that tuple to urllib3's `status`
parameter — the per-category retry *count* — and leaves `status_forcelist`
at `None`, so none of those statuses is force-retried: `is_retry` is false
for every one of them (absent a `Retry-After` header) under the retry object
`_build_session` constructs. -/
theorem retry_config_status_not_forcelisted :
    build_session.retry.status_forcelist = none
    ∧ build_session.retry.status = [429, 500, 502, 503, 504]
    ∧ is_retry build_session.retry "GET" 429 false = false
    ∧ is_retry build_session.retry "GET" 500 false = false
    ∧ is_retry build_session.retry "POST" 502 false = false
    ∧ is_retry build_session.retry "PUT" 503 false = false
    ∧ is_retry build_session.retry "DELETE" 504 false = false := by
  refine ⟨rfl, rfl, ?_, ?_, ?_, ?_, ?_⟩ <;> decide

/-- Claim C2, amended: the URL sent by the core request operation is the
input URL resolved against the base URL, where a URL is left unmodified
exactly when it starts with the literal string "http" (not: with a URL
scheme), and is prefixed with the base URL otherwise. -/
theorem resolve_url_http_literal (c : EverHome) (m u : String) (p : Json)
    (ps : List (String × Json)) (o : HttpOutcome) :
    (internal_call c m u p ps o).sent.url = resolveUrl c.base_url u
    ∧ (strStartsWith u "http" = true → resolveUrl c.base_url u = u)
    ∧ (strStartsWith u "http" = false →
        resolveUrl c.base_url u = c.base_url ++ u) := by
  refine ⟨?_, ?_, ?_⟩
  · cases h : ps.lookup "content_type" <;> simp [internal_call, buildRequest, h]
  · intro h; simp [resolveUrl, h]
  · intro h; simp [resolveUrl, h]

/-- Claim C2 witness: a plain relative path is prefixed, an `https` URL is
left unmodified. -/
theorem resolve_url_http_literal_witness :
    resolveUrl c0.base_url "user/current" = c0.base_url ++ "user/current"
    ∧ resolveUrl c0.base_url "https://example.org/a" = "https://example.org/a" :=
  ⟨(resolve_url_http_literal c0 "GET" "user/current" Json.null [] o200).2.2
      (by decide),
   (resolve_url_http_literal c0 "GET" "https://example.org/a" Json.null [] o200).2.1
      (by decide)⟩

/-- Claim C2 counterexample: `ftp://example.org/x` starts with a URL scheme,
yet the core request operation modifies it by prepending the base URL —
the code tests `startswith("http")`, not "starts with a scheme". -/
theorem resolve_url_scheme_counterexample :
    startsWithUrlScheme "ftp://example.org/x" = true
    ∧ (internal_call c0 "GET" "ftp://example.org/x" Json.null [] o200).sent.url
        = "https://everhome.cloud/ftp://example.org/x"
    ∧ ¬ ((internal_call c0 "GET" "ftp://example.org/x" Json.null [] o200).sent.url
        = "ftp://example.org/x") :=
  ⟨by decide, rfl, by decide⟩

/-- Claim C3, amended: with a reserved `content_type` key the header takes
its value, the key is stripped from the wire parameters, and a *truthy*
payload is sent unmodified; without it the header is `application/json` and
a *truthy* payload is JSON-serialized.  A falsy payload (None, empty dict or
list, empty string, zero, False) is omitted from the request body in both
branches. -/
theorem content_type_and_payload_encoding (c : EverHome) (m u : String)
    (p : Json) (ps : List (String × Json)) (o : HttpOutcome) (ct : Json) :
    (ps.lookup "content_type" = some ct →
      (internal_call c m u p ps o).sent.headers
          = auth_headers c ++ [("Content-Type", ct)]
      ∧ (internal_call c m u p ps o).sent.params
          = ps.filter (fun q => q.1 != "content_type")
      ∧ (internal_call c m u p ps o).sent.data
          = (if pyTruthy p then some (SentBody.raw p) else none))
    ∧ (ps.lookup "content_type" = none →
      (internal_call c m u p ps o).sent.headers
          = auth_headers c ++ [("Content-Type", Json.str "application/json")]
      ∧ (internal_call c m u p ps o).sent.params = ps
      ∧ (internal_call c m u p ps o).sent.data
          = (if pyTruthy p then some (SentBody.jsonData (dumps p)) else none)) := by
  constructor <;> intro h <;>
    exact ⟨by simp [internal_call, buildRequest, h],
           by simp [internal_call, buildRequest, h],
           by simp [internal_call, buildRequest, h]⟩

/-- Claim C3 witness: a `content_type` override with a truthy raw payload. -/
theorem content_type_and_payload_encoding_witness :
    (internal_call c0 "POST" "device" (Json.str "raw")
        [("content_type", Json.str "text/plain"), ("a", Json.num 1)] o200).sent.headers
      = [("Authorization", Json.str "Bearer 123"), ("Content-Type", Json.str "text/plain")]
    ∧ (internal_call c0 "POST" "device" (Json.str "raw")
        [("content_type", Json.str "text/plain"), ("a", Json.num 1)] o200).sent.params
      = [("a", Json.num 1)]
    ∧ (internal_call c0 "POST" "device" (Json.str "raw")
        [("content_type", Json.str "text/plain"), ("a", Json.num 1)] o200).sent.data
      = some (SentBody.raw (Json.str "raw")) := by
  have h := content_type_and_payload_encoding c0 "POST" "device" (Json.str "raw")
      [("content_type", Json.str "text/plain"), ("a", Json.num 1)] o200
      (Json.str "text/plain")
  exact ⟨(h.1 rfl).1, (h.1 rfl).2.1, (h.1 rfl).2.2⟩

/-- Claim C3 counterexample: an empty dict is a present payload, yet without
a `content_type` override the code sends no body at all instead of the
JSON-serialized payload — `if payload:` tests truthiness, not presence. -/
theorem payload_encoding_counterexample :
    (internal_call c0 "POST" "device" (Json.obj []) [] o200).sent.data = none
    ∧ ¬ ((internal_call c0 "POST" "device" (Json.obj []) [] o200).sent.data
        = some (SentBody.jsonData (dumps (Json.obj [])))) := by
  refine ⟨rfl, ?_⟩
  intro h
  rw [show (internal_call c0 "POST" "device" (Json.obj []) [] o200).sent.data
        = none from rfl] at h
  exact Option.noConfusion h

/-- Claim C4: on an HTTP error status whose body is a JSON object with an
`error` object carrying `message` and `reason`, the raised exception has
the response's status, error code `-1`, a message combining the request URL
with the extracted message, the extracted reason, and the response
headers. -/
theorem http_error_json_fields (c : EverHome) (m u : String) (p : Json)
    (ps : List (String × Json)) (r : Response)
    (fs efs : List (String × Json)) (msgv rsv : Json)
    (h1 : 400 ≤ r.statusCode) (h2 : r.statusCode < 600)
    (hb : r.jsonBody = some (Json.obj fs))
    (he : fs.lookup "error" = some (Json.obj efs))
    (hm : efs.lookup "message" = some msgv)
    (hr : efs.lookup "reason" = some rsv)
    (hu : r.url = resolveUrl c.base_url u) :
    (internal_call c m u p ps (HttpOutcome.response r)).result
      = Except.error (PyError.everhome
          { http_status := r.statusCode
            error_code := -1
            message := resolveUrl c.base_url u ++ ":\n " ++ pyStr msgv
            reason := rsv
            headers := some r.headers }) := by
  show handleOutcome (HttpOutcome.response r) = _
  simp only [handleOutcome]
  rw [if_pos ⟨h1, h2⟩, hb]
  simp [pyDictGet, he, hm, hr, hu]

/-- Claim C4 witness: the spec's 404 example. -/
theorem http_error_json_fields_witness :
    (internal_call c0 "GET" "user/current" Json.null []
        (HttpOutcome.response r404)).result
      = Except.error (PyError.everhome
          { http_status := 404
            error_code := -1
            message := "https://everhome.cloud/user/current:\n not found"
            reason := Json.str "no_such_user"
            headers := some [("Content-Length", "64")] }) := by
  have h := http_error_json_fields c0 "GET" "user/current" Json.null [] r404
      [("error", Json.obj [("message", Json.str "not found"),
                           ("reason", Json.str "no_such_user")])]
      [("message", Json.str "not found"), ("reason", Json.str "no_such_user")]
      (Json.str "not found") (Json.str "no_such_user")
      (by decide) (by decide) rfl rfl rfl rfl (by decide)
  exact h

/-- Claim C5: on an HTTP error status whose body does not parse as JSON,
the message component derived from the body is the raw response text when
non-empty and the rendering of `None` when empty, and the reason is
`None`. -/
theorem http_error_text_fallback (c : EverHome) (m u : String) (p : Json)
    (ps : List (String × Json)) (r : Response)
    (h1 : 400 ≤ r.statusCode) (h2 : r.statusCode < 600)
    (hb : r.jsonBody = none) :
    (internal_call c m u p ps (HttpOutcome.response r)).result
      = Except.error (PyError.everhome
          { http_status := r.statusCode
            error_code := -1
            message := r.url ++ ":\n "
                ++ pyStr (if r.text = "" then Json.null else Json.str r.text)
            reason := Json.null
            headers := some r.headers }) := by
  show handleOutcome (HttpOutcome.response r) = _
  simp only [handleOutcome]
  rw [if_pos ⟨h1, h2⟩, hb]

/-- Claim C5 witness: the spec's 500 example with text body
`"internal error"`. -/
theorem http_error_text_fallback_witness :
    (internal_call c0 "GET" "user/current" Json.null []
        (HttpOutcome.response r500)).result
      = Except.error (PyError.everhome
          { http_status := 500
            error_code := -1
            message := "https://everhome.cloud/user/current:\n internal error"
            reason := Json.null
            headers := some [] }) := by
  have h := http_error_text_fallback c0 "GET" "user/current" Json.null [] r500
      (by decide) (by decide) rfl
  exact h

/-- Claim C6: on transport-level retry exhaustion the raised exception has
status 429, error code `-1`, a message combining the request path with the
literal "Max Retries", the reason extracted from the retry failure (`None`
when unavailable), and no headers. -/
theorem retry_exhaustion_error (c : EverHome) (m u : String) (p : Json)
    (ps : List (String × Json)) (info : RetryErrorInfo) :
    (internal_call c m u p ps (HttpOutcome.retryError info)).result
      = Except.error (PyError.everhome
          { http_status := 429
            error_code := -1
            message := info.path_url ++ ":\n " ++ "Max Retries"
            reason := info.argReason.getD Json.null
            headers := none }) := rfl

/-- Claim C7: on a non-error HTTP status the call returns the parsed JSON
body, and `None` (not an error) when the body does not parse. -/
theorem success_json_or_none (c : EverHome) (m u : String) (p : Json)
    (ps : List (String × Json)) (r : Response)
    (h : ¬ (400 ≤ r.statusCode ∧ r.statusCode < 600)) :
    (internal_call c m u p ps (HttpOutcome.response r)).result
      = Except.ok (r.jsonBody.getD Json.null) := by
  show handleOutcome (HttpOutcome.response r) = _
  simp only [handleOutcome]
  rw [if_neg h]

/-- Claim C7 witness: a 200 response with a non-JSON body yields `None`. -/
theorem success_json_or_none_witness :
    (internal_call c0 "GET" "user/current" Json.null []
        (HttpOutcome.response r200bad)).result = Except.ok Json.null :=
  success_json_or_none c0 "GET" "user/current" Json.null [] r200bad (by decide)

/-- Claim C8, amended: whenever the transport outcome is a retry error, or a
response whose body is unparseable or parses to a JSON object whose `error`
member (defaulting to the empty object) is itself an object, every failure
surfaced by the core request operation is the single typed exception kind.
(When an HTTP-error body parses to JSON of any other shape, an uncaught
`AttributeError` escapes instead.) -/
theorem typed_failure_objlike (c : EverHome) (m u : String) (p : Json)
    (ps : List (String × Json)) (o : HttpOutcome)
    (h : errorBodyObjLike o = true) :
    onlyTypedFailure (internal_call c m u p ps o).result = true := by
  cases o with
  | retryError info => rfl
  | response r =>
      show onlyTypedFailure (handleOutcome (HttpOutcome.response r)) = true
      by_cases hs : 400 ≤ r.statusCode ∧ r.statusCode < 600
      · cases hb : r.jsonBody with
        | none => simp [handleOutcome, if_pos hs, hb, onlyTypedFailure]
        | some j =>
            cases j with
            | obj fs =>
                simp only [errorBodyObjLike, hb] at h
                cases he : (fs.lookup "error").getD (Json.obj []) with
                | obj efs =>
                    simp [handleOutcome, if_pos hs, hb, pyDictGet, he,
                          onlyTypedFailure]
                | null => rw [he] at h; simp at h
                | bool b => rw [he] at h; simp at h
                | num n => rw [he] at h; simp at h
                | str s => rw [he] at h; simp at h
                | arr xs => rw [he] at h; simp at h
            | null => simp [errorBodyObjLike, hb] at h
            | bool b => simp [errorBodyObjLike, hb] at h
            | num n => simp [errorBodyObjLike, hb] at h
            | str s => simp [errorBodyObjLike, hb] at h
            | arr xs => simp [errorBodyObjLike, hb] at h
      · simp [handleOutcome, if_neg hs, onlyTypedFailure]

/-- Claim C8 witness: the 404 JSON-error response surfaces the typed
exception. -/
theorem typed_failure_objlike_witness :
    onlyTypedFailure (internal_call c0 "GET" "user/current" Json.null []
        (HttpOutcome.response r404)).result = true :=
  typed_failure_objlike c0 "GET" "user/current" Json.null []
    (HttpOutcome.response r404) rfl

/-- Claim C8 counterexample: a 404 response whose body is the JSON array
`[]` makes `json_response.get("error", {})` fail — an `AttributeError`, not
the typed exception, escapes the core request operation. -/
theorem typed_failure_counterexample :
    (internal_call c0 "GET" "user/current" Json.null []
        (HttpOutcome.response rArrBody)).result
      = Except.error PyError.attributeError
    ∧ onlyTypedFailure (internal_call c0 "GET" "user/current" Json.null []
        (HttpOutcome.response rArrBody)).result = false :=
  ⟨rfl, rfl⟩

/-- Claim C9: every request carries `Authorization: Bearer <token>` built
from the token stored at call time; `set_auth` replaces the stored token and
subsequent calls use the new one, while the request built from the earlier
client value is exactly `buildRequest` of that value (so a call dispatched
before the change is unaffected). -/
theorem bearer_header_current_token (c : EverHome) (m u : String) (p : Json)
    (ps : List (String × Json)) (o : HttpOutcome) (t : String) :
    ((internal_call c m u p ps o).sent.headers).lookup "Authorization"
        = some (Json.str ("Bearer " ++ formatAuth c._auth))
    ∧ (set_auth c (some t))._auth = some t
    ∧ ((internal_call (set_auth c (some t)) m u p ps o).sent.headers).lookup
          "Authorization" = some (Json.str ("Bearer " ++ t))
    ∧ (internal_call c m u p ps o).sent = buildRequest c m u p ps := by
  refine ⟨?_, rfl, ?_, rfl⟩ <;>
    cases h : ps.lookup "content_type" <;>
      simp [internal_call, buildRequest, auth_headers, set_auth, formatAuth, h,
            List.lookup]

/-- Claim C10: `set_auth` updates only the stored token — base URL, timeout
and session are untouched — and every request operation leaves the client
state exactly as it was, whether the call succeeds or fails. -/
theorem state_frame (c : EverHome) (a : Option String) (m u : String)
    (p : Json) (ps : List (String × Json))
    (args : Option (List (String × Json))) (o : HttpOutcome) :
    (set_auth c a)._auth = a
    ∧ (set_auth c a).base_url = c.base_url
    ∧ (set_auth c a).requests_timeout = c.requests_timeout
    ∧ (set_auth c a)._session = c._session
    ∧ (internal_callS c m u p ps o).2 = c
    ∧ (get_wrapperS c u args p ps o).2 = c
    ∧ (post_wrapperS c u args p ps o).2 = c
    ∧ (put_wrapperS c u args p ps o).2 = c
    ∧ (delete_wrapperS c u args p ps o).2 = c :=
  ⟨rfl, rfl, rfl, rfl, rfl, rfl, rfl, rfl, rfl⟩
